import Mathlib

/-!
Verification of the AI file-organizing agent (file_processor.py, ai_analyzer.py,
organizer.py, main.py) against its natural-language specification.

Modelling conventions:
* Python dictionaries holding JSON-shaped data are modelled by the inductive
  type `JVal`; dict insertion order is preserved by association lists.
* Python exceptions are modelled by `Except String`; a `try/except` block is
  translated to a `match` on the `Except` value.  A function whose embedding
  returns a plain value (not `Except`) cannot raise past its boundary.
* The filesystem is modelled explicitly: a list of directory paths and a list
  of file paths, both as strings joined with "/".
* External capabilities (stat, per-format decoding libraries, the remote
  chat-completion endpoint) are parameters: `Readers` bundles the decoders,
  the remote endpoint is a function `String → Except String String`.
* `json.loads` is modelled by `jsonLoads`, a concrete recursive-descent parser
  for the common JSON fragment (strings without escapes, integers, booleans,
  null, arrays, objects); general theorems quantify over an arbitrary parser
  `jl : String → Option JVal`, and `jsonLoads` instantiates it in witnesses.
-/

/-- JSON-shaped Python values: the payloads of `json.loads`, the analysis
dictionaries built by `ai_analyzer.py`, and metadata mappings. -/
inductive JVal where
  | str : String → JVal
  | num : Int → JVal
  | bool : Bool → JVal
  | null : JVal
  | arr : List JVal → JVal
  | obj : List (String × JVal) → JVal
deriving Repr

mutual

/-- Structural equality on `JVal`, modelling Python `==` on parsed JSON
values (used for dictionary keys in the report's category counter). -/
def JVal.beq : JVal → JVal → Bool
  | .str a, .str b => a == b
  | .num a, .num b => a == b
  | .bool a, .bool b => a == b
  | .null, .null => true
  | .arr as, .arr bs => beqValList as bs
  | .obj as, .obj bs => beqValFields as bs
  | _, _ => false

/-- Elementwise `JVal.beq` on lists (Python `==` on lists). -/
def beqValList : List JVal → List JVal → Bool
  | [], [] => true
  | a :: as, b :: bs => JVal.beq a b && beqValList as bs
  | _, _ => false

/-- Elementwise `JVal.beq` on key-value lists (Python `==` on dicts,
restricted to equal insertion order, which is all the code ever compares). -/
def beqValFields : List (String × JVal) → List (String × JVal) → Bool
  | [], [] => true
  | (k, a) :: as, (l, b) :: bs => k == l && JVal.beq a b && beqValFields as bs
  | _, _ => false

end

/-- Python whitespace characters recognised by `str.strip()`. -/
def isPyWs (c : Char) : Bool :=
  c = ' ' || c = '\n' || c = '\t' || c = '\r' || c = '\x0b' || c = '\x0c'

/-- `str.strip()` on a character list. -/
def stripChars (cs : List Char) : List Char :=
  ((cs.dropWhile isPyWs).reverse.dropWhile isPyWs).reverse

/-- Python `str.strip()`. -/
def pyStrip (s : String) : String := String.mk (stripChars s.data)

/-- Python slicing `s[:n]` (by code points). -/
def strTake (s : String) (n : Nat) : String := String.mk (s.data.take n)

/-- Python `str.lower()` (ASCII case folding suffices for extensions). -/
def lowerStr (s : String) : String := String.mk (s.data.map Char.toLower)

/-- Python `str.replace(".", "")`: delete every dot. -/
def replaceDot (s : String) : String :=
  String.mk (s.data.filter (fun c => c != '.'))

/-- The characters after the last path separator, i.e. `Path(p).name`. -/
def afterLastSlash : List Char → List Char → List Char
  | [], acc => acc.reverse
  | c :: cs, acc => if c = '/' then afterLastSlash cs [] else afterLastSlash cs (c :: acc)

/-- `pathlib.Path(p).name`. -/
def pathName (p : String) : String := String.mk (afterLastSlash p.data [])

/-- Index of the last '.' in a character list, if any. -/
def lastDotIdxAux : List Char → Nat → Option Nat → Option Nat
  | [], _, best => best
  | c :: cs, i, best => lastDotIdxAux cs (i + 1) (if c = '.' then some i else best)

/-- `pathlib.Path(p).suffix`: from the last dot of the name, empty when the
dot is leading or trailing (CPython's `0 < i < len(name) - 1` rule). -/
def pathSuffix (p : String) : String :=
  let n := afterLastSlash p.data []
  match lastDotIdxAux n 0 none with
  | some i => if 0 < i ∧ i < n.length - 1 then String.mk (n.drop i) else ""
  | none => ""

/-- `pathlib.Path(p).stem`: the name with `pathSuffix` removed. -/
def pathStem (p : String) : String :=
  let n := afterLastSlash p.data []
  match lastDotIdxAux n 0 none with
  | some i => if 0 < i ∧ i < n.length - 1 then String.mk (n.take i) else String.mk n
  | none => String.mk n

/-- JSON whitespace. -/
def isJsonWs (c : Char) : Bool := c = ' ' || c = '\n' || c = '\t' || c = '\r'

/-- Drop leading JSON whitespace. -/
def skipWs : List Char → List Char
  | [] => []
  | c :: cs => if isJsonWs c then skipWs cs else c :: cs

/-- Accumulate a run of decimal digits into a natural number. -/
def digitsToNat : List Char → Nat → Nat
  | [], acc => acc
  | c :: cs, acc => digitsToNat cs (acc * 10 + (c.toNat - '0'.toNat))

/-- Split a character list into its leading digit run and the rest. -/
def takeDigits : List Char → List Char × List Char
  | [] => ([], [])
  | c :: cs =>
    if c.isDigit then
      let (ds, r) := takeDigits cs
      (c :: ds, r)
    else ([], c :: cs)

/-- Parse the body of a JSON string up to the closing quote (escape
sequences are outside the modelled fragment and rejected). -/
def parseStrChars : List Char → Option (List Char × List Char)
  | [] => none
  | c :: cs =>
    if c = '"' then some ([], cs)
    else if c = '\\' then none
    else (parseStrChars cs).map (fun p => (c :: p.1, p.2))

/-- Does the list start with the given characters? -/
def startsWithChars : List Char → List Char → Bool
  | [], _ => true
  | _, [] => false
  | p :: ps, c :: cs => p = c && startsWithChars ps cs

mutual

/-- Fuel-bounded recursive-descent parser for one JSON value. -/
def parseVal : Nat → List Char → Option (JVal × List Char)
  | 0, _ => none
  | fuel + 1, cs =>
    match skipWs cs with
    | [] => none
    | c :: rest =>
      if c = '"' then (parseStrChars rest).map (fun p => (JVal.str (String.mk p.1), p.2))
      else if c = '[' then
        match skipWs rest with
        | ']' :: r2 => some (JVal.arr [], r2)
        | r2 => (parseItems fuel r2).map (fun p => (JVal.arr p.1, p.2))
      else if c = '\x7b' then
        match skipWs rest with
        | '\x7d' :: r2 => some (JVal.obj [], r2)
        | r2 => (parseFields fuel r2).map (fun p => (JVal.obj p.1, p.2))
      else if c.isDigit then
        let (ds, r) := takeDigits (c :: rest)
        some (JVal.num (Int.ofNat (digitsToNat ds 0)), r)
      else if c = '-' then
        match rest with
        | d :: _ =>
          if d.isDigit then
            let (ds, r) := takeDigits rest
            some (JVal.num (-(Int.ofNat (digitsToNat ds 0))), r)
          else none
        | [] => none
      else if startsWithChars ['t', 'r', 'u', 'e'] (c :: rest) then
        some (JVal.bool true, (c :: rest).drop 4)
      else if startsWithChars ['f', 'a', 'l', 's', 'e'] (c :: rest) then
        some (JVal.bool false, (c :: rest).drop 5)
      else if startsWithChars ['n', 'u', 'l', 'l'] (c :: rest) then
        some (JVal.null, (c :: rest).drop 4)
      else none

/-- Comma-separated JSON array items up to the closing bracket. -/
def parseItems : Nat → List Char → Option (List JVal × List Char)
  | 0, _ => none
  | fuel + 1, cs => do
    let (v, r) ← parseVal fuel cs
    match skipWs r with
    | ',' :: r2 =>
      let (vs, r3) ← parseItems fuel r2
      pure (v :: vs, r3)
    | ']' :: r2 => pure ([v], r2)
    | _ => none

/-- Comma-separated JSON object fields up to the closing brace. -/
def parseFields : Nat → List Char → Option (List (String × JVal) × List Char)
  | 0, _ => none
  | fuel + 1, cs =>
    match skipWs cs with
    | '"' :: r => do
      let (k, r2) ← parseStrChars r
      match skipWs r2 with
      | ':' :: r3 => do
        let (v, r4) ← parseVal fuel r3
        match skipWs r4 with
        | ',' :: r5 =>
          let (fs, r6) ← parseFields fuel r5
          pure ((String.mk k, v) :: fs, r6)
        | '\x7d' :: r5 => pure ([(String.mk k, v)], r5)
        | _ => none
      | _ => none
    | _ => none

end

/-- Model of Python `json.loads`: parse one JSON value and require the
remainder to be whitespace, otherwise fail (Python raises on trailing data). -/
def jsonLoads (s : String) : Option JVal :=
  match parseVal (2 * s.length + 2) s.data with
  | some (v, r) => if skipWs r = [] then some v else none
  | none => none

/-! ## agent/file_processor.py -/

/-- External decoding capabilities used by `FileProcessor`.  `statSize` is
`Path.stat().st_size` (can raise, e.g. `FileNotFoundError`); the per-format
readers model the decoding libraries (open/PyPDF2/docx/pandas/json/PIL).
`readImage` is total because `_read_image_file` catches every exception
internally and degrades to a descriptive string plus error metadata. -/
structure Readers where
  statSize : String → Except String Nat
  readText : String → Except String String
  readPdf : String → Except String String
  readDocx : String → Except String String
  readCsv : String → Except String (String × List (String × JVal))
  readJson : String → Except String String
  readImage : String → String × List (String × JVal)

/-- The record built by `FileProcessor.extract_content` (a Python dict whose
optional `error` key is modelled as an `Option` field). -/
structure Extracted where
  file_path : String
  file_name : String
  file_type : String
  size_bytes : Nat
  content : String
  metadata : List (String × JVal)
  error : Option String
deriving Repr

/-- `FileProcessor.supported_formats`. -/
def supported_formats : List String :=
  [".txt", ".pdf", ".docx", ".csv", ".json", ".jpg", ".jpeg", ".png", ".gif", ".bmp"]

/-- `FileProcessor.can_process`: lowercased suffix membership. -/
def can_process (file_path : String) : Bool :=
  supported_formats.contains (lowerStr (pathSuffix file_path))

/-- The image extensions dispatched to `_read_image_file`. -/
def image_extensions : List String := [".jpg", ".jpeg", ".png", ".gif", ".bmp"]

/-- The extension dispatch inside the `try` block of `extract_content`:
each branch fills `content` (and, for CSV/images, `metadata`) of the
pre-built result record; an unmatched extension leaves it untouched. -/
def attemptExtract (R : Readers) (file_path extension : String) (base : Extracted) :
    Except String Extracted :=
  if extension = ".txt" then
    (R.readText file_path).map (fun c => { base with content := c })
  else if extension = ".pdf" then
    (R.readPdf file_path).map (fun c => { base with content := c })
  else if extension = ".docx" then
    (R.readDocx file_path).map (fun c => { base with content := c })
  else if extension = ".csv" then
    (R.readCsv file_path).map (fun p => { base with content := p.1, metadata := p.2 })
  else if extension = ".json" then
    (R.readJson file_path).map (fun c => { base with content := c })
  else if extension ∈ image_extensions then
    let p := R.readImage file_path
    .ok { base with content := p.1, metadata := p.2 }
  else .ok base

/-- The `except Exception` clause of `extract_content`: a caught exception
is recorded on the `error` field of the (otherwise default) result. -/
def catchExtract (base : Extracted) (attempt : Except String Extracted) : Extracted :=
  match attempt with
  | .ok r => r
  | .error e => { base with error := some e }

/-- `FileProcessor.extract_content`.  `Path(file_path).stat().st_size` runs
before the `try` block, so a failing stat propagates (`Except.error`); every
decoding failure inside the `try` is caught and recorded on the `error`
field with `content`/`metadata` left at their defaults. -/
def extract_content (R : Readers) (file_path : String) : Except String Extracted :=
  let extension := lowerStr (pathSuffix file_path)
  match R.statSize file_path with
  | .error e => .error e
  | .ok size =>
    let base : Extracted :=
      { file_path := file_path, file_name := pathName file_path, file_type := extension
        size_bytes := size, content := "", metadata := [], error := none }
    .ok (catchExtract base (attemptExtract R file_path extension base))

/-! ## agent/ai_analyzer.py -/

/-- Association lookup on a modelled JSON object, i.e. `dict.get(k)` /
`dict[k]` restricted to objects (returns `none` when the key is absent or
the value is not an object). -/
def jLookup (a : JVal) (k : String) : Option JVal :=
  match a with
  | .obj kvs => kvs.lookup k
  | _ => none

/-- Python's `x.get(k, dflt)`: succeeds on dicts, raises `AttributeError`
on every other value (list, str, int, bool, None have no `.get`). -/
def jGet (a : JVal) (k : String) (dflt : JVal) : Except String JVal :=
  match a with
  | .obj kvs => .ok ((kvs.lookup k).getD dflt)
  | .arr _ => .error "AttributeError: 'list' object has no attribute 'get'"
  | .str _ => .error "AttributeError: 'str' object has no attribute 'get'"
  | .num _ => .error "AttributeError: 'int' object has no attribute 'get'"
  | .bool _ => .error "AttributeError: 'bool' object has no attribute 'get'"
  | .null => .error "AttributeError: 'NoneType' object has no attribute 'get'"

/-- The prompt built in `AIAnalyzer.analyze_content` (indentation of the
Python triple-quoted literal is not reproduced; no claim depends on it). -/
def mkPrompt (file_name file_type content : String) : String :=
  "\nAnalyze this file and provide insights:\n\nFile: " ++ file_name ++ " (" ++ file_type
    ++ ")\nContent: " ++ strTake content 800
    ++ "...\n\nPlease respond with a JSON object containing:\n"
    ++ "1. \"category\": One of [document, data, report, personal, work, images, other]\n"
    ++ "2. \"summary\": Brief 2-sentence summary\n"
    ++ "3. \"tags\": List of 3-5 relevant keywords\n"
    ++ "4. \"priority\": One of [high, medium, low]\n"
    ++ "5. \"action_needed\": Brief suggestion for what to do with this file\n\n"
    ++ "For images, focus on the type and potential use.\n"
    ++ "Focus on being practical and helpful.\n"

/-- `AIAnalyzer._create_default_analysis`: the deterministic type-based
fallback classification. -/
def create_default_analysis (file_name file_type error_msg : String) : JVal :=
  if file_type ∈ [".jpg", ".jpeg", ".png", ".gif", ".bmp"] then
    .obj [("category", .str "images"),
          ("summary", .str ("Image file: " ++ file_name ++ ". May contain photos, graphics, or visual content.")),
          ("tags", .arr [.str "image", .str "visual", .str (replaceDot file_type)]),
          ("priority", .str "medium"),
          ("action_needed", .str "Review and organize in image collection"),
          ("note", .str ("Default analysis used due to: " ++ error_msg))]
  else if file_type = ".pdf" then
    .obj [("category", .str "document"),
          ("summary", .str ("PDF document: " ++ file_name ++ ". Likely contains text, reports, or formatted content.")),
          ("tags", .arr [.str "pdf", .str "document", .str "text"]),
          ("priority", .str "medium"),
          ("action_needed", .str "Review document content and file appropriately"),
          ("note", .str ("Default analysis used due to: " ++ error_msg))]
  else if file_type ∈ [".csv", ".xlsx"] then
    .obj [("category", .str "data"),
          ("summary", .str ("Data file: " ++ file_name ++ ". Contains structured data in tabular format.")),
          ("tags", .arr [.str "data", .str "spreadsheet", .str (replaceDot file_type)]),
          ("priority", .str "medium"),
          ("action_needed", .str "Analyze data structure and content"),
          ("note", .str ("Default analysis used due to: " ++ error_msg))]
  else
    .obj [("category", .str "other"),
          ("summary", .str ("File: " ++ file_name ++ ". Requires manual review to determine content and purpose.")),
          ("tags", .arr [.str (replaceDot file_type), .str "needs_review"]),
          ("priority", .str "medium"),
          ("action_needed", .str "Manual review recommended"),
          ("note", .str ("Default analysis used due to: " ++ error_msg))]

/-- `AIAnalyzer._parse_ai_response`: strict `json.loads`, any parse failure
replaced by the degraded classification. -/
def parse_ai_response (jl : String → Option JVal) (response : String) : JVal :=
  match jl response with
  | some v => v
  | none =>
    .obj [("category", .str "other"),
          ("summary", .str (if response.length > 100 then strTake response 100 ++ "..." else response)),
          ("tags", .arr [.str "parsed_response"]),
          ("priority", .str "medium"),
          ("action_needed", .str "Review AI response parsing")]

/-- `AIAnalyzer.analyze_content`.  `jl` models `json.loads`; `llm` models
the chat-completion call (prompt to response text, may raise).  The entire
body after the prompt sits in a `try` whose `except` returns the default
analysis, so the embedding is a total function: no exception propagates to
the caller.  The `analysis.get('category', 'unknown')` in the success-path
progress message can itself raise (on non-dict JSON) and is modelled by the
`jGet` step. -/
def analyze_content (jl : String → Option JVal) (llm : String → Except String String)
    (fd : Extracted) : JVal :=
  let content := fd.content
  let file_name := fd.file_name
  let file_type := fd.file_type
  let prompt := mkPrompt file_name file_type content
  let attempt : Except String JVal :=
    if pyStrip content = "" then
      .ok (create_default_analysis file_name file_type "No content extracted")
    else
      match llm prompt with
      | .error e => .error e
      | .ok ai_response =>
        let analysis := parse_ai_response jl ai_response
        match jGet analysis "category" (.str "unknown") with
        | .error e => .error e
        | .ok _ => .ok analysis
  match attempt with
  | .ok a => a
  | .error e => create_default_analysis file_name file_type e

/-! ## agent/organizer.py -/

/-- The directory names hard-coded in `FileOrganizer.setup_directories`
(note: these differ from the classifier's category enumeration). -/
def organizer_categories : List String :=
  ["documents", "data", "reports", "personal", "work", "other"]

/-- `Path.mkdir(exist_ok=True)` on the modelled directory set. -/
def mkdirp (fs : List String) (p : String) : List String :=
  if p ∈ fs then fs else fs ++ [p]

/-- `FileOrganizer.setup_directories`: each category directory is created
with `parents=True` (which also creates the output root), then `reports`
is created once more. -/
def setup_directories (output_dir : String) (fs : List String) : List String :=
  let fs1 := organizer_categories.foldl
    (fun acc c => mkdirp (mkdirp acc output_dir) (output_dir ++ "/" ++ c)) fs
  mkdirp fs1 (output_dir ++ "/reports")

/-- The dict returned by `FileOrganizer.organize_file` (success dict has
`original_path,new_path,category,timestamp,status`; failure dict has
`original_path,error,status`; absent keys are `none`). -/
structure OrgResult where
  original_path : String
  new_path : Option String
  category : Option String
  timestamp : Option String
  status : String
  error : Option String
deriving Repr

/-- One entry of `FileOrganizer.processing_log`. -/
structure LogEntry where
  file : String
  analysis : JVal
  organization : OrgResult
deriving Repr

/-- A `FileOrganizer` instance together with the modelled filesystem:
output root, existing directories, existing files, and the run-scoped
processing log. -/
structure OrgState where
  output_dir : String
  fsDirs : List String
  fsFiles : List String
  log : List LogEntry
deriving Repr

/-- `FileOrganizer.__init__`: store the output root, eagerly run
`setup_directories`, start with an empty processing log. -/
def mkOrganizer (output_dir : String) (dirs files : List String) : OrgState :=
  { output_dir := output_dir, fsDirs := setup_directories output_dir dirs
    fsFiles := files, log := [] }

/-- `Path.exists()`: true for both files and directories. -/
def pathExists (st : OrgState) (p : String) : Bool :=
  st.fsFiles.contains p || st.fsDirs.contains p

/-- The candidate destination paths tried by the collision loop in
`organize_file`: first `dest_dir/name`, then `dest_dir/stem_k suffix`
for counters k = 1, 2, ... -/
def destCandidate (dir name stem sfx : String) : Nat → String
  | 0 => dir ++ "/" ++ name
  | k + 1 => dir ++ "/" ++ stem ++ "_" ++ toString (k + 1) ++ sfx

/-- The `while dest_path.exists()` loop of `organize_file`, embedded with
fuel (the Python loop is unbounded; on a finite filesystem some candidate
is always free, and every theorem states its fuel hypothesis explicitly). -/
def resolveCollision (ex : String → Bool) (dir name stem sfx : String) :
    Nat → Nat → String
  | 0, k => destCandidate dir name stem sfx k
  | fuel + 1, k =>
    if ex (destCandidate dir name stem sfx k) then
      resolveCollision ex dir name stem sfx fuel (k + 1)
    else destCandidate dir name stem sfx k

/-- `shutil.move(src, dest)` on the modelled filesystem: fails with
`FileNotFoundError` when the source file is missing or the destination's
directory does not exist; otherwise removes the source, replaces any file
already at the destination, and adds the destination. -/
def fsMove (files dirs : List String) (src destDir dest : String) :
    Except String (List String) :=
  if files.contains src then
    if dirs.contains destDir then
      .ok ((files.erase src).filter (fun q => q != dest) ++ [dest])
    else .error ("[Errno 2] No such file or directory: '" ++ dest ++ "'")
  else .error ("[Errno 2] No such file or directory: '" ++ src ++ "'")

/-- `analysis.get('category', 'other')` followed by
`self.output_dir / category` in `organize_file`, both of which run before
the `try` block: a non-dict analysis raises `AttributeError`, and a
non-string category raises `TypeError` from the path join; both propagate
out of `organize_file`. -/
def getCat (analysis : JVal) : Except String String :=
  match analysis with
  | .obj kvs =>
    match (kvs.lookup "category").getD (.str "other") with
    | .str s => .ok s
    | _ => .error "TypeError: argument should be a str or an os.PathLike object"
  | .arr _ => .error "AttributeError: 'list' object has no attribute 'get'"
  | .str _ => .error "AttributeError: 'str' object has no attribute 'get'"
  | .num _ => .error "AttributeError: 'int' object has no attribute 'get'"
  | .bool _ => .error "AttributeError: 'bool' object has no attribute 'get'"
  | .null => .error "AttributeError: 'NoneType' object has no attribute 'get'"

/-- The body of `organize_file` after the category has been resolved:
compute the collision-free destination, attempt the move inside `try`;
on success append the log entry and return the success dict, on failure
return the failure dict with the state untouched. -/
def organize_move (st : OrgState) (now : String) (fd : Extracted)
    (analysis : JVal) (category : String) : OrgResult × OrgState :=
  let source_path := fd.file_path
  let dest_dir := st.output_dir ++ "/" ++ category
  let name := pathName source_path
  let dest_path := resolveCollision (fun q => pathExists st q) dest_dir name
    (pathStem source_path) (pathSuffix source_path)
    (st.fsFiles.length + st.fsDirs.length + 1) 0
  match fsMove st.fsFiles st.fsDirs source_path dest_dir dest_path with
  | .error e =>
    ({ original_path := source_path, new_path := none, category := none
       timestamp := none, status := "failed", error := some e }, st)
  | .ok files' =>
    let result : OrgResult :=
      { original_path := source_path, new_path := some dest_path
        category := some category, timestamp := some now
        status := "success", error := none }
    (result,
     { st with fsFiles := files'
               log := st.log ++ [{ file := name, analysis := analysis, organization := result }] })

/-- `FileOrganizer.organize_file`.  The category lookup and path join run
before the `try`, so their exceptions propagate (`Except.error`); the move
itself is protected. -/
def organize_file (st : OrgState) (now : String) (fd : Extracted)
    (analysis : JVal) : Except String (OrgResult × OrgState) :=
  match getCat analysis with
  | .error e => .error e
  | .ok category => .ok (organize_move st now fd analysis category)

/-- `entry['analysis'].get('category', 'other')` in `generate_report`
(raises `AttributeError` on a non-dict analysis). -/
def catKeyE (analysis : JVal) : Except String JVal :=
  match analysis with
  | .obj kvs => .ok ((kvs.lookup "category").getD (.str "other"))
  | _ => .error "AttributeError: object has no attribute 'get'"

/-- `report['categories'][category] = report['categories'].get(category, 0) + 1`:
increment the count for a key, appending new keys in insertion order. -/
def bump : List (JVal × Nat) → JVal → List (JVal × Nat)
  | [], k => [(k, 1)]
  | (k', n) :: rest, k =>
    if JVal.beq k' k then (k', n + 1) :: rest else (k', n) :: bump rest k

/-- Total count held in the categories mapping. -/
def sumCounts : List (JVal × Nat) → Nat
  | [] => 0
  | p :: rest => p.2 + sumCounts rest

/-- The structured report dict of `generate_report`. -/
structure Report where
  timestamp : String
  total_files : Nat
  categories : List (JVal × Nat)
  files : List LogEntry
deriving Repr

/-- Rendering of a category key inside the human-readable summary
(f-string formatting; only string keys occur in practice). -/
def jDisplay : JVal → String
  | .str s => s
  | .num n => toString n
  | .bool b => if b then "True" else "False"
  | .null => "None"
  | .arr _ => "[...]"
  | .obj _ => "\x7b...\x7d"

/-- The per-category lines of the summary. -/
def categoryLines : List (JVal × Nat) → String
  | [] => ""
  | (k, n) :: rest => "  " ++ jDisplay k ++ ": " ++ toString n ++ " files\n" ++ categoryLines rest

/-- The human-readable summary string built by `generate_report`. -/
def mkSummary (now : String) (rep : Report) (path : String) : String :=
  "\nFILE PROCESSING REPORT\nGenerated: " ++ now ++ "\n\nTotal Files Processed: "
    ++ toString rep.total_files ++ "\n\nFiles by Category:\n"
    ++ categoryLines rep.categories
    ++ "\nDetailed report saved to: " ++ path

/-- `FileOrganizer.generate_report`.  The timestamp parameter `now` stands
for the `datetime.now()` readings (their various renderings are opaque to
every claim).  The JSON file write is modelled by the returned
`Option (path × Report)`: `none` means no file was written. -/
def generate_report (st : OrgState) (now : String) :
    Except String (Option (String × Report) × String) :=
  if st.log.isEmpty then .ok (none, "No files processed yet.")
  else
    match st.log.foldlM (fun m e => (catKeyE e.analysis).map (fun k => bump m k)) [] with
    | .error e => .error e
    | .ok cats =>
      let rep : Report :=
        { timestamp := now, total_files := st.log.length, categories := cats, files := st.log }
      let path := st.output_dir ++ "/reports/processing_report_" ++ now ++ ".json"
      .ok (some (path, rep), mkSummary now rep path)

/-! ## main.py -/

/-- The terminal state of one file's pass through
`FileAgentHandler.process_file`. -/
inductive Outcome where
  | skipped
  | extraction_failed
  | organized
  | organization_failed
deriving Repr, DecidableEq

/-- `FileAgentHandler.process_file`: the per-file pipeline.  An uncaught
exception from a stage (a failing stat in `extract_content`, or the
category lookup / path join in `organize_file`) surfaces as `Except.error`
and crashes the coordinator. -/
def process_file (R : Readers) (jl : String → Option JVal)
    (llm : String → Except String String) (st : OrgState) (now : String)
    (p : String) : Except String (Outcome × OrgState) :=
  if ¬ can_process p then .ok (.skipped, st)
  else
    match extract_content R p with
    | .error e => .error e
    | .ok fd =>
      if fd.error.isSome then .ok (.extraction_failed, st)
      else
        let analysis := analyze_content jl llm fd
        match organize_file st now fd analysis with
        | .error e => .error e
        | .ok (r, st') =>
          if r.status = "success" then .ok (.organized, st')
          else .ok (.organization_failed, st')

/-- The `for file_path in files` loop of
`FileAgentHandler.process_existing_files`. -/
def processLoop (R : Readers) (jl : String → Option JVal)
    (llm : String → Except String String) (st : OrgState) (now : String) :
    List String → Except String OrgState
  | [] => .ok st
  | p :: rest =>
    match process_file R jl llm st now p with
    | .error e => .error e
    | .ok (_, st') => processLoop R jl llm st' now rest

/-- `FileAgentHandler.process_existing_files`: nothing to do on an empty
listing; otherwise process each file in turn and generate one report. -/
def process_existing_files (R : Readers) (jl : String → Option JVal)
    (llm : String → Except String String) (st : OrgState) (now : String)
    (files : List String) : Except String OrgState :=
  if files = [] then .ok st
  else
    match processLoop R jl llm st now files with
    | .error e => .error e
    | .ok st' =>
      match generate_report st' now with
      | .error e => .error e
      | .ok _ => .ok st'

/-! ## Concrete fixtures for witnesses and counterexamples -/

/-- A remote classifier that is unreachable: every call raises. -/
def llmDown : String → Except String String := fun _ => .error "Connection error"

/-- Readers for a filesystem where the target file has vanished: the stat
raises `FileNotFoundError`; the remaining decoders are immaterial. -/
def ghostReaders : Readers :=
  { statSize := fun p => .error ("[Errno 2] No such file or directory: '" ++ p ++ "'")
    readText := fun _ => .ok "", readPdf := fun _ => .ok "", readDocx := fun _ => .ok ""
    readCsv := fun _ => .ok ("", []), readJson := fun _ => .ok ""
    readImage := fun _ => ("", []) }

/-- Readers for a filesystem where every file stats fine and reads as the
text "hello". -/
def okReaders : Readers :=
  { statSize := fun _ => .ok 5
    readText := fun _ => .ok "hello", readPdf := fun _ => .ok "hello"
    readDocx := fun _ => .ok "hello", readCsv := fun _ => .ok ("hello", [])
    readJson := fun _ => .ok "hello", readImage := fun _ => ("hello", []) }

/-- The `ExtractedContent` record the extractor produces for a 640x480 PNG
named `photo.png` sitting in `input/`. -/
def pngFd : Extracted :=
  { file_path := "input/photo.png", file_name := "photo.png", file_type := ".png"
    size_bytes := 2048
    content := "Image file: photo.png\nFormat: PNG\nDimensions: 640x480 pixels\nColor mode: RGB\nFile size: 2048 bytes"
    metadata := [("width", .num 640), ("height", .num 480), ("format", .str "PNG"),
                 ("mode", .str "RGB"), ("file_size", .num 2048)]
    error := none }

/-- The `ExtractedContent` record for a small text file `input/notes.txt`. -/
def txtFd : Extracted :=
  { file_path := "input/notes.txt", file_name := "notes.txt", file_type := ".txt"
    size_bytes := 5, content := "hello", metadata := [], error := none }

/-! ## Helper lemmas -/

theorem mem_mkdirp_self (fs : List String) (p : String) : p ∈ mkdirp fs p := by
  unfold mkdirp
  split
  · assumption
  · simp

theorem mem_mkdirp_mono {fs : List String} {q : String} (p : String) (h : q ∈ fs) :
    q ∈ mkdirp fs p := by
  unfold mkdirp
  split
  · exact h
  · exact List.mem_append_left _ h

theorem mkdirp_mem_eq {fs : List String} {p : String} (h : p ∈ fs) : mkdirp fs p = fs := by
  unfold mkdirp
  exact if_pos h

/-- Every branch of the `try` body leaves the optional `error` key unset. -/
theorem attemptExtract_ok_error_none (R : Readers) (fp ext : String) (base r : Extracted)
    (hb : base.error = none) (h : attemptExtract R fp ext base = .ok r) : r.error = none := by
  unfold attemptExtract at h
  split at h
  · cases hr : R.readText fp <;> rw [hr] at h <;> simp [Except.map] at h
    subst h; exact hb
  · split at h
    · cases hr : R.readPdf fp <;> rw [hr] at h <;> simp [Except.map] at h
      subst h; exact hb
    · split at h
      · cases hr : R.readDocx fp <;> rw [hr] at h <;> simp [Except.map] at h
        subst h; exact hb
      · split at h
        · cases hr : R.readCsv fp <;> rw [hr] at h <;> simp [Except.map] at h
          subst h; exact hb
        · split at h
          · cases hr : R.readJson fp <;> rw [hr] at h <;> simp [Except.map] at h
            subst h; exact hb
          · split at h
            · simp at h; subst h; exact hb
            · simp at h; subst h; exact hb

/-! ## Claim C1 -/

/-- Claim C1 counterexample: for the path of a file that has vanished
(the stat raises `FileNotFoundError`), `extract_content` raises past its
own boundary instead of returning a record with the `error` field set —
the stat runs before the `try` block. -/
theorem c1_extract_raises_on_missing_stat :
    extract_content ghostReaders "input/ghost.txt"
      = .error "[Errno 2] No such file or directory: 'input/ghost.txt'" := rfl

/-- Claim C1 (amended): for every file path whose stat succeeds, `extract`
returns normally, and any underlying decoding failure is caught and
reported in the returned record's `error` field, with `content` left at
the empty string and `metadata` left at the empty mapping. -/
theorem c1_extract_never_raises_when_stat_ok (R : Readers) (p : String) (n : Nat)
    (h : R.statSize p = .ok n) :
    ∃ r, extract_content R p = .ok r ∧
      ∀ e, r.error = some e → r.content = "" ∧ r.metadata = [] := by
  unfold extract_content
  rw [h]
  refine ⟨_, rfl, ?_⟩
  intro e he
  unfold catchExtract at he ⊢
  split at he
  · rename_i r' hr'
    rw [attemptExtract_ok_error_none R p (lowerStr (pathSuffix p)) _ r' rfl hr'] at he
    cases he
  · exact ⟨rfl, rfl⟩

/-- Witness for C1 at a concrete input: stat of `input/notes.txt` succeeds
under `okReaders`, and the theorem applies. -/
theorem c1_witness :
    ∃ r, extract_content okReaders "input/notes.txt" = .ok r ∧
      ∀ e, r.error = some e → r.content = "" ∧ r.metadata = [] :=
  c1_extract_never_raises_when_stat_ok okReaders "input/notes.txt" 5 rfl

/-! ## Claim C2 -/

/-- Claim C2 (code bug): dropping `photo.png` with the remote classifier
unreachable classifies it as `images` via the deterministic fallback, but
`organize_file` fails with `FileNotFoundError` instead of moving the file
under `output/images/`: `setup_directories` never creates an `images`
directory and `organize_file` does not create the destination directory
on demand, so the move target's directory is missing.  The state (log and
filesystem) is returned unchanged. -/
theorem c2_png_move_fails :
    organize_file (mkOrganizer "output" [] ["input/photo.png"]) "T" pngFd
        (analyze_content jsonLoads llmDown pngFd)
      = .ok ({ original_path := "input/photo.png", new_path := none, category := none
               timestamp := none, status := "failed"
               error := some "[Errno 2] No such file or directory: 'output/images/photo.png'" },
             mkOrganizer "output" [] ["input/photo.png"])
    ∧ (mkOrganizer "output" [] ["input/photo.png"]).fsDirs.contains "output/images" = false
    ∧ jLookup (analyze_content jsonLoads llmDown pngFd) "category" = some (.str "images") :=
  ⟨rfl, rfl, rfl⟩


/-! ## Claim C3 -/

/-- Unfolding of `setup_directories` into its fold and final `mkdir`. -/
theorem setup_directories_eq (root : String) (fs : List String) :
    setup_directories root fs
      = mkdirp (organizer_categories.foldl
          (fun acc c => mkdirp (mkdirp acc root) (root ++ "/" ++ c)) fs)
          (root ++ "/reports") := rfl

theorem foldl_mkdirp_mono (root : String) (l : List String) :
    ∀ (fs : List String) (q : String), q ∈ fs →
      q ∈ l.foldl (fun acc c => mkdirp (mkdirp acc root) (root ++ "/" ++ c)) fs := by
  induction l with
  | nil => intro fs q h; exact h
  | cons a l ih =>
    intro fs q h
    exact ih _ q (mem_mkdirp_mono _ (mem_mkdirp_mono _ h))

theorem foldl_mkdirp_mem_cat (root : String) (l : List String) :
    ∀ (fs : List String) (c : String), c ∈ l →
      (root ++ "/" ++ c) ∈ l.foldl (fun acc c => mkdirp (mkdirp acc root) (root ++ "/" ++ c)) fs := by
  induction l with
  | nil => intro fs c h; cases h
  | cons a l ih =>
    intro fs c h
    rcases List.mem_cons.mp h with h | h
    · subst h
      exact foldl_mkdirp_mono root l _ _ (mem_mkdirp_self _ _)
    · exact ih _ c h

theorem foldl_mkdirp_mem_root (root : String) (l : List String) (fs : List String)
    (h : l ≠ []) :
    root ∈ l.foldl (fun acc c => mkdirp (mkdirp acc root) (root ++ "/" ++ c)) fs := by
  cases l with
  | nil => cases h rfl
  | cons a l =>
    exact foldl_mkdirp_mono root l _ root (mem_mkdirp_mono _ (mem_mkdirp_self _ _))

theorem foldl_mkdirp_fix (root : String) (l : List String) :
    ∀ fs : List String, root ∈ fs → (∀ c ∈ l, (root ++ "/" ++ c) ∈ fs) →
      l.foldl (fun acc c => mkdirp (mkdirp acc root) (root ++ "/" ++ c)) fs = fs := by
  induction l with
  | nil => intro fs _ _; rfl
  | cons a l ih =>
    intro fs hroot hall
    have ha : (root ++ "/" ++ a) ∈ fs := hall a (List.mem_cons_self a l)
    simp only [List.foldl, mkdirp_mem_eq hroot, mkdirp_mem_eq ha]
    exact ih fs hroot (fun c hc => hall c (List.mem_cons_of_mem a hc))

theorem setup_mem_cat (root : String) (fs : List String) :
    ∀ c ∈ organizer_categories, (root ++ "/" ++ c) ∈ setup_directories root fs := by
  intro c hc
  rw [setup_directories_eq]
  exact mem_mkdirp_mono _ (foldl_mkdirp_mem_cat root organizer_categories fs c hc)

theorem setup_mem_reports (root : String) (fs : List String) :
    (root ++ "/reports") ∈ setup_directories root fs := by
  rw [setup_directories_eq]
  exact mem_mkdirp_self _ _

theorem setup_mem_root (root : String) (fs : List String) :
    root ∈ setup_directories root fs := by
  rw [setup_directories_eq]
  refine mem_mkdirp_mono _ (foldl_mkdirp_mem_root root organizer_categories fs ?_)
  simp [organizer_categories]

theorem setup_idem (root : String) (fs : List String) :
    setup_directories root (setup_directories root fs) = setup_directories root fs := by
  have h0 := setup_mem_root root fs
  have hcat := setup_mem_cat root fs
  have h7 := setup_mem_reports root fs
  rw [setup_directories_eq root (setup_directories root fs),
    foldl_mkdirp_fix root organizer_categories (setup_directories root fs) h0 hcat,
    mkdirp_mem_eq h7]

/-- Claim C3 counterexample: after construction over an empty filesystem,
no directory exists for the categories `document`, `report` or `images`
from the claimed enumerated set — `setup_directories` hard-codes the
differently-named list `documents, data, reports, personal, work, other`
and creates no `images` directory at all. -/
theorem c3_claimed_category_dirs_missing :
    (["document", "data", "report", "personal", "work", "images", "other"].all
      (fun c => (setup_directories "output" []).contains ("output/" ++ c))) = false
    ∧ (setup_directories "output" []).contains "output/images" = false :=
  ⟨rfl, rfl⟩

/-- Claim C3 (amended): at construction time the Organizer eagerly and
idempotently creates one subdirectory of the output root for each name in
the hard-coded list `documents, data, reports, personal, work, other`
(which differs from the classifier's category enumeration and contains no
`images` entry) plus a `reports` subdirectory. -/
theorem c3_setup_creates_code_dirs_idempotent (root : String) (dirs files : List String) :
    (∀ c ∈ organizer_categories, (root ++ "/" ++ c) ∈ (mkOrganizer root dirs files).fsDirs)
    ∧ (root ++ "/reports") ∈ (mkOrganizer root dirs files).fsDirs
    ∧ setup_directories root (mkOrganizer root dirs files).fsDirs
        = (mkOrganizer root dirs files).fsDirs := by
  have hdirs : (mkOrganizer root dirs files).fsDirs = setup_directories root dirs := by
    simp only [mkOrganizer]
  rw [hdirs]
  exact ⟨setup_mem_cat root dirs, setup_mem_reports root dirs, setup_idem root dirs⟩

/-- Witness for C3 at a concrete input. -/
theorem c3_witness :
    ("output" ++ "/" ++ "documents") ∈ (mkOrganizer "output" [] []).fsDirs :=
  (c3_setup_creates_code_dirs_idempotent "output" [] []).1 "documents"
    (by simp [organizer_categories])

/-! ## Claim C4 -/

/-- A remote classifier that answers with free text that is not JSON. -/
def llmPlain : String → Except String String := fun _ => .ok "this is not JSON"

/-- Claim C4: `classify` never propagates an exception to its caller (the
embedding `analyze_content` is a total function into `JVal`: every
internal `Except.error`, including the remote call's, is caught by the
final match), and whenever the remote response cannot be parsed as JSON it
returns the degraded classification: category `other`, summary the first
100 characters of the raw response ellipsized only when the response
exceeds 100 characters, tags `[parsed_response]`, priority `medium`, and
an `action_needed` note to review the parsing. -/
theorem c4_unparseable_response_degraded (jl : String → Option JVal)
    (llm : String → Except String String) (fd : Extracted) (raw : String)
    (hc : ¬ pyStrip fd.content = "")
    (hllm : llm (mkPrompt fd.file_name fd.file_type fd.content) = .ok raw)
    (hjl : jl raw = none) :
    analyze_content jl llm fd
      = .obj [("category", .str "other"),
              ("summary", .str (if raw.length > 100 then strTake raw 100 ++ "..." else raw)),
              ("tags", .arr [.str "parsed_response"]),
              ("priority", .str "medium"),
              ("action_needed", .str "Review AI response parsing")] := by
  simp only [analyze_content]
  rw [if_neg hc, hllm]
  simp only [parse_ai_response]
  rw [hjl]
  rfl

/-- Witness for C4 at a concrete input: a non-empty text file whose
classification response is plain prose. -/
theorem c4_witness :
    analyze_content jsonLoads llmPlain txtFd
      = .obj [("category", .str "other"),
              ("summary", .str (if ("this is not JSON").length > 100
                 then strTake "this is not JSON" 100 ++ "..." else "this is not JSON")),
              ("tags", .arr [.str "parsed_response"]),
              ("priority", .str "medium"),
              ("action_needed", .str "Review AI response parsing")] :=
  c4_unparseable_response_degraded jsonLoads llmPlain txtFd "this is not JSON"
    (by decide) rfl rfl

/-! ## Claim C7 -/

/-- Claim C7: the fallback classifier is a pure function of
`(file_name, file_type, reason)` — determinism is definitional in the
embedding — and satisfies the claimed branch mapping: image extensions go
to `images`, `.pdf` to `document`, `.csv`/`.xlsx` to `data`, anything else
to `other` with action "Manual review recommended"; priority is always
`medium` and a note always records the reason. -/
theorem c7_default_analysis_characterization (file_name file_type error_msg : String) :
    jLookup (create_default_analysis file_name file_type error_msg) "priority"
        = some (.str "medium")
    ∧ jLookup (create_default_analysis file_name file_type error_msg) "note"
        = some (.str ("Default analysis used due to: " ++ error_msg))
    ∧ (file_type ∈ [".jpg", ".jpeg", ".png", ".gif", ".bmp"] →
        jLookup (create_default_analysis file_name file_type error_msg) "category"
          = some (.str "images"))
    ∧ (file_type = ".pdf" →
        jLookup (create_default_analysis file_name file_type error_msg) "category"
          = some (.str "document"))
    ∧ (file_type ∈ [".csv", ".xlsx"] →
        jLookup (create_default_analysis file_name file_type error_msg) "category"
          = some (.str "data"))
    ∧ (file_type ∉ [".jpg", ".jpeg", ".png", ".gif", ".bmp"] → file_type ≠ ".pdf" →
        file_type ∉ [".csv", ".xlsx"] →
        jLookup (create_default_analysis file_name file_type error_msg) "category"
          = some (.str "other")
        ∧ jLookup (create_default_analysis file_name file_type error_msg) "action_needed"
          = some (.str "Manual review recommended")) := by
  by_cases h1 : file_type ∈ [".jpg", ".jpeg", ".png", ".gif", ".bmp"]
  · simp only [create_default_analysis, if_pos h1]
    refine ⟨rfl, rfl, fun _ => rfl, fun h => absurd h1 (by subst h; decide), fun h => ?_,
      fun hna _ _ => absurd h1 hna⟩
    fin_cases h <;> exact absurd h1 (by decide)
  · simp only [create_default_analysis, if_neg h1]
    by_cases h2 : file_type = ".pdf"
    · simp only [if_pos h2]
      subst h2
      exact ⟨rfl, rfl, fun h => absurd h h1, fun _ => rfl, fun h => absurd h (by decide),
        fun _ hne _ => absurd rfl hne⟩
    · simp only [if_neg h2]
      by_cases h3 : file_type ∈ [".csv", ".xlsx"]
      · simp only [if_pos h3]
        exact ⟨rfl, rfl, fun h => absurd h h1, fun h => absurd h h2, fun _ => rfl,
          fun _ _ hn => absurd h3 hn⟩
      · simp only [if_neg h3]
        exact ⟨rfl, rfl, fun h => absurd h h1, fun h => absurd h h2, fun h => absurd h h3,
          fun _ _ _ => ⟨rfl, rfl⟩⟩

/-- Witness for C7 at a concrete input: a `.png` lands in `images`. -/
theorem c7_witness :
    jLookup (create_default_analysis "photo.png" ".png" "Connection error") "category"
      = some (.str "images") :=
  (c7_default_analysis_characterization "photo.png" ".png" "Connection error").2.2.1
    (by decide)

/-! ## Claim C6 -/

/-- The `ExtractedContent` record for an unclassifiable file `input/a.xyz`
(used to exercise a category whose directory does not exist). -/
def xyzFd : Extracted :=
  { file_path := "input/a.xyz", file_name := "a.xyz", file_type := ".xyz"
    size_bytes := 3, content := "x", metadata := [], error := none }

/-- Claim C6: whenever the move fails (source file missing, or destination
directory missing), `organize_file` returns status `failed` carrying the
error message, appends no log entry, and leaves the filesystem untouched —
the returned state is exactly the input state, so the source file remains
at its original location. -/
theorem c6_failed_move_no_log_state_unchanged (st : OrgState) (now : String)
    (fd : Extracted) (analysis : JVal) (c : String)
    (hcat : getCat analysis = .ok c)
    (hfail : st.fsFiles.contains fd.file_path = false
           ∨ st.fsDirs.contains (st.output_dir ++ "/" ++ c) = false) :
    ∃ e, organize_file st now fd analysis
      = .ok ({ original_path := fd.file_path, new_path := none, category := none
               timestamp := none, status := "failed", error := some e }, st) := by
  unfold organize_file
  rw [hcat]
  simp only [organize_move, fsMove]
  rcases hfail with hf | hf
  · rw [hf]
    exact ⟨_, rfl⟩
  · rw [hf]
    cases hsrc : st.fsFiles.contains fd.file_path
    · exact ⟨_, rfl⟩
    · exact ⟨_, rfl⟩

/-- Witness for C6 at a concrete input: the classifier invented category
`weird`, whose directory was never created. -/
theorem c6_witness :
    ∃ e, organize_file (mkOrganizer "output" [] ["input/a.xyz"]) "T" xyzFd
        (.obj [("category", .str "weird")])
      = .ok ({ original_path := "input/a.xyz", new_path := none, category := none
               timestamp := none, status := "failed", error := some e },
             mkOrganizer "output" [] ["input/a.xyz"]) :=
  c6_failed_move_no_log_state_unchanged (mkOrganizer "output" [] ["input/a.xyz"]) "T"
    xyzFd (.obj [("category", .str "weird")]) "weird" rfl (Or.inr rfl)

/-! ## Claim C8 -/

theorem resolveCollision_spec (ex : String → Bool) (dir name stem sfx : String) :
    ∀ (fuel k : Nat),
      (∃ j, j < fuel ∧ ex (destCandidate dir name stem sfx (k + j)) = false) →
      ∃ j, j < fuel
        ∧ resolveCollision ex dir name stem sfx fuel k = destCandidate dir name stem sfx (k + j)
        ∧ ex (destCandidate dir name stem sfx (k + j)) = false
        ∧ ∀ i, i < j → ex (destCandidate dir name stem sfx (k + i)) = true := by
  intro fuel
  induction fuel with
  | zero =>
    rintro k ⟨j, hj, -⟩
    exact absurd hj (Nat.not_lt_zero j)
  | succ fuel ih =>
    rintro k ⟨j, hj, hfree⟩
    by_cases hk : ex (destCandidate dir name stem sfx k) = true
    · have hj0 : j ≠ 0 := by
        intro h
        subst h
        rw [Nat.add_zero] at hfree
        rw [hfree] at hk
        cases hk
      obtain ⟨j', rfl⟩ : ∃ j', j = j' + 1 := ⟨j - 1, by omega⟩
      have hfree' : ex (destCandidate dir name stem sfx ((k + 1) + j')) = false := by
        have hkj : (k + 1) + j' = k + (j' + 1) := by omega
        rw [hkj]
        exact hfree
      obtain ⟨j'', hj'', heq, hfree'', hocc⟩ := ih (k + 1) ⟨j', by omega, hfree'⟩
      refine ⟨j'' + 1, by omega, ?_, ?_, ?_⟩
      · simp only [resolveCollision, if_pos hk]
        rw [heq]
        have hkj : (k + 1) + j'' = k + (j'' + 1) := by omega
        rw [hkj]
      · have hkj : k + (j'' + 1) = (k + 1) + j'' := by omega
        rw [hkj]
        exact hfree''
      · intro i hi
        cases i with
        | zero =>
          rw [Nat.add_zero]
          exact hk
        | succ i' =>
          have hkj : k + (i' + 1) = (k + 1) + i' := by omega
          rw [hkj]
          exact hocc i' (by omega)
    · have hk' : ex (destCandidate dir name stem sfx k) = false :=
        Bool.not_eq_true _ ▸ Bool.eq_false_iff.mpr (fun h => hk h)
      refine ⟨0, Nat.succ_pos _, ?_, ?_, fun i hi => absurd hi (Nat.not_lt_zero i)⟩
      · simp only [resolveCollision, if_neg hk]
        rw [Nat.add_zero]
      · rw [Nat.add_zero]
        exact hk'

/-- Claim C8: the collision loop deterministically tries `name.ext`,
`name_1.ext`, `name_2.ext`, ... in order and returns the first candidate
that does not already exist, so (while some candidate is reachable within
the fuel, which on a finite filesystem always holds) repeated moves of
same-named files produce the successive suffixed names and the returned
destination never collides with an existing file. -/
theorem c8_collision_suffix_first_free (ex : String → Bool) (dir name stem sfx : String)
    (fuel : Nat)
    (h : ∃ j, j < fuel ∧ ex (destCandidate dir name stem sfx j) = false) :
    ∃ j, j < fuel
      ∧ resolveCollision ex dir name stem sfx fuel 0 = destCandidate dir name stem sfx j
      ∧ ex (destCandidate dir name stem sfx j) = false
      ∧ ∀ i, i < j → ex (destCandidate dir name stem sfx i) = true := by
  have hs := resolveCollision_spec ex dir name stem sfx fuel 0 (by simpa using h)
  simpa using hs

/-- Witness for C8 at a concrete input: with `photo.png` and `photo_1.png`
already present, the loop lands on `photo_2.png`. -/
theorem c8_witness :
    ∃ j, j < 3
      ∧ resolveCollision
          (fun s => ["output/images/photo.png", "output/images/photo_1.png"].contains s)
          "output/images" "photo.png" "photo" ".png" 3 0
        = destCandidate "output/images" "photo.png" "photo" ".png" j
      ∧ (fun s => ["output/images/photo.png", "output/images/photo_1.png"].contains s)
          (destCandidate "output/images" "photo.png" "photo" ".png" j) = false
      ∧ ∀ i, i < j →
          (fun s => ["output/images/photo.png", "output/images/photo_1.png"].contains s)
            (destCandidate "output/images" "photo.png" "photo" ".png" i) = true :=
  c8_collision_suffix_first_free
    (fun s => ["output/images/photo.png", "output/images/photo_1.png"].contains s)
    "output/images" "photo.png" "photo" ".png" 3 ⟨2, by decide⟩

/-! ## Claim C9 -/

/-- Is the modelled value a Python dict? -/
def isObjB : JVal → Bool
  | .obj _ => true
  | _ => false

theorem catKeyE_ok {a : JVal} (h : isObjB a = true) : ∃ k, catKeyE a = .ok k := by
  cases a
  case obj kvs => exact ⟨_, rfl⟩
  all_goals simp [isObjB] at h

theorem sumCounts_bump (m : List (JVal × Nat)) (k : JVal) :
    sumCounts (bump m k) = sumCounts m + 1 := by
  induction m with
  | nil => rfl
  | cons p rest ih =>
    obtain ⟨k', n⟩ := p
    simp only [bump]
    split
    · simp only [sumCounts]
      omega
    · simp only [sumCounts, ih]
      omega

theorem foldCats_sum (log : List LogEntry) :
    ∀ (m cats : List (JVal × Nat)),
      log.foldlM (fun m e => (catKeyE e.analysis).map (fun k => bump m k)) m = .ok cats →
      sumCounts cats = sumCounts m + log.length := by
  induction log with
  | nil =>
    intro m cats h
    simp only [List.foldlM_nil, pure] at h
    cases h
    simp
  | cons e rest ih =>
    intro m cats h
    simp only [List.foldlM_cons] at h
    cases hk : catKeyE e.analysis with
    | error err =>
      rw [hk] at h
      simp [Except.map, Bind.bind, Except.bind] at h
    | ok k =>
      rw [hk] at h
      simp only [Except.map, Bind.bind, Except.bind] at h
      have hs := ih (bump m k) cats h
      rw [hs, sumCounts_bump]
      simp only [List.length_cons]
      omega

theorem foldCats_ok (log : List LogEntry) :
    ∀ m : List (JVal × Nat), (∀ e ∈ log, isObjB e.analysis = true) →
      ∃ cats, log.foldlM (fun m e => (catKeyE e.analysis).map (fun k => bump m k)) m
        = .ok cats := by
  induction log with
  | nil =>
    intro m _
    exact ⟨m, rfl⟩
  | cons e rest ih =>
    intro m hall
    obtain ⟨k, hk⟩ := catKeyE_ok (hall e (List.mem_cons_self e rest))
    obtain ⟨cats, hc⟩ := ih (bump m k) (fun x hx => hall x (List.mem_cons_of_mem e hx))
    refine ⟨cats, ?_⟩
    simp only [List.foldlM_cons, hk, Except.map, Bind.bind, Except.bind]
    exact hc

/-- Claim C9: `generate_report` on an empty log returns the fixed
no-files-processed message and writes no file; on a non-empty log (of
well-formed entries) it writes a timestamped JSON report whose
`total_files` equals the length of `files` equals the length of the log,
with `sum(categories.values()) == total_files`, and returns the summary
string listing the total, the per-category breakdown, and the report
file's path. -/
theorem c9_report_invariants (st : OrgState) (now : String) :
    (st.log = [] → generate_report st now = .ok (none, "No files processed yet."))
    ∧ (∀ path rep s, generate_report st now = .ok (some (path, rep), s) →
        rep.total_files = st.log.length
        ∧ rep.files.length = st.log.length
        ∧ sumCounts rep.categories = rep.total_files
        ∧ path = st.output_dir ++ "/reports/processing_report_" ++ now ++ ".json"
        ∧ s = mkSummary now rep path)
    ∧ (st.log ≠ [] → (∀ e ∈ st.log, isObjB e.analysis = true) →
        ∃ path rep s, generate_report st now = .ok (some (path, rep), s)) := by
  refine ⟨?_, ?_, ?_⟩
  · intro h
    simp [generate_report, h]
  · intro path rep s h
    unfold generate_report at h
    by_cases hlog : st.log.isEmpty
    · rw [if_pos hlog] at h
      simp at h
    · rw [if_neg hlog] at h
      cases hf : st.log.foldlM (fun m e => (catKeyE e.analysis).map (fun k => bump m k)) [] with
      | error err =>
        rw [hf] at h
        cases h
      | ok cats =>
        rw [hf] at h
        injection h with h
        injection h with h1 h2
        injection h1 with h1
        injection h1 with hpath hrep
        subst hpath
        subst hrep
        subst h2
        have hsum := foldCats_sum st.log [] cats hf
        simp only [sumCounts] at hsum
        exact ⟨rfl, rfl, by simpa using hsum, rfl, rfl⟩
  · intro hne hobj
    obtain ⟨cats, hf⟩ := foldCats_ok st.log [] hobj
    have hlog : st.log.isEmpty = false := by
      cases hl : st.log
      · exact absurd hl hne
      · rfl
    unfold generate_report
    rw [hlog]
    simp only [Bool.false_eq_true, if_false, hf]
    exact ⟨_, _, _, rfl⟩

/-- A run state whose log holds one successfully organized text file. -/
def stLog1 : OrgState :=
  { output_dir := "output", fsDirs := [], fsFiles := []
    log := [{ file := "a.txt", analysis := .obj [("category", .str "other")]
              organization := { original_path := "input/a.txt"
                                new_path := some "output/other/a.txt"
                                category := some "other", timestamp := some "T"
                                status := "success", error := none } }] }

/-- Witness for C9 at a concrete input. -/
theorem c9_witness :
    ∃ path rep s, generate_report stLog1 "T" = .ok (some (path, rep), s) :=
  (c9_report_invariants stLog1 "T").2.2 (by simp [stLog1]) (by decide)

/-! ## Claim C10 -/

/-- A remote classifier answering with a JSON array. -/
def llmArr : String → Except String String := fun _ => .ok "[1, 2]"

/-- A remote classifier answering with a minimal JSON object whose
category is outside the fixed enumerated set's directory layout. -/
def llmObjWork : String → Except String String :=
  fun _ => .ok "\x7b\"category\": \"work\"\x7d"

/-- Claim C10 counterexample: the response "[1, 2]" parses as valid JSON,
yet `classify` does not return the parsed value: the success-path progress
message calls `.get` on the parsed list, which raises `AttributeError`
inside the `try`, so the call falls back to the type-based default
analysis instead. -/
theorem c10_nonobject_json_not_returned :
    jsonLoads "[1, 2]" = some (.arr [.num 1, .num 2])
    ∧ llmArr (mkPrompt txtFd.file_name txtFd.file_type txtFd.content) = .ok "[1, 2]"
    ∧ analyze_content jsonLoads llmArr txtFd ≠ .arr [.num 1, .num 2]
    ∧ analyze_content jsonLoads llmArr txtFd
        = create_default_analysis "notes.txt" ".txt"
            "AttributeError: 'list' object has no attribute 'get'" :=
  ⟨rfl, rfl, by intro h; injection h, rfl⟩

/-- Claim C10 (amended): for every remote response string that parses as a
valid JSON *object*, `classify` returns exactly the parsed object with no
validation — the category may be any string outside the fixed enumerated
set, or absent along with every other expected key — and a string-valued
category is then used directly as the destination directory name by
`organize` (responses parsing to non-object JSON values instead hit the
generic exception fallback). -/
theorem c10_json_object_verbatim_and_used_as_dir :
    (∀ (jl : String → Option JVal) (llm : String → Except String String) (fd : Extracted)
        (raw : String) (kvs : List (String × JVal)),
      ¬ pyStrip fd.content = "" →
      llm (mkPrompt fd.file_name fd.file_type fd.content) = .ok raw →
      jl raw = some (.obj kvs) →
      analyze_content jl llm fd = .obj kvs)
    ∧ (∀ (st : OrgState) (now : String) (fd : Extracted) (kvs : List (String × JVal))
        (c : String),
      kvs.lookup "category" = some (.str c) →
      st.fsFiles.contains fd.file_path = true →
      st.fsDirs.contains (st.output_dir ++ "/" ++ c) = true →
      pathExists st (st.output_dir ++ "/" ++ c ++ "/" ++ pathName fd.file_path) = false →
      ∃ r st', organize_file st now fd (.obj kvs) = .ok (r, st')
        ∧ r.status = "success"
        ∧ r.new_path = some (st.output_dir ++ "/" ++ c ++ "/" ++ pathName fd.file_path)) := by
  constructor
  · intro jl llm fd raw kvs hc hllm hjl
    simp only [analyze_content]
    rw [if_neg hc, hllm]
    simp only [parse_ai_response]
    rw [hjl]
    rfl
  · intro st now fd kvs c hcat hsrc hdir hfree
    unfold organize_file
    simp only [getCat, hcat, Option.getD]
    simp only [organize_move, fsMove, resolveCollision, destCandidate]
    have hfree' : ¬ (pathExists st (st.output_dir ++ "/" ++ c ++ "/" ++ pathName fd.file_path)
        = true) := by
      rw [hfree]
      decide
    simp only [if_neg hfree', if_pos hsrc, if_pos hdir]
    exact ⟨_, _, rfl, rfl, rfl⟩

/-- Witness for C10 at concrete inputs: the object response is returned
verbatim, and its `work` category names the destination directory. -/
theorem c10_witness :
    analyze_content jsonLoads llmObjWork txtFd = .obj [("category", .str "work")]
    ∧ ∃ r st', organize_file (mkOrganizer "output" [] ["input/notes.txt"]) "T" txtFd
          (.obj [("category", .str "work")]) = .ok (r, st')
        ∧ r.status = "success"
        ∧ r.new_path = some ((mkOrganizer "output" [] ["input/notes.txt"]).output_dir
            ++ "/" ++ "work" ++ "/" ++ pathName txtFd.file_path) :=
  ⟨c10_json_object_verbatim_and_used_as_dir.1 jsonLoads llmObjWork txtFd
      "\x7b\"category\": \"work\"\x7d" [("category", .str "work")] (by decide) rfl rfl,
   c10_json_object_verbatim_and_used_as_dir.2 (mkOrganizer "output" [] ["input/notes.txt"])
      "T" txtFd [("category", .str "work")] "work" rfl rfl rfl rfl⟩

/-! ## Claim C5 -/

theorem extract_ok (R : Readers) (p : String) (n : Nat) (h : R.statSize p = .ok n) :
    ∃ fd, extract_content R p = .ok fd := by
  unfold extract_content
  rw [h]
  exact ⟨_, rfl⟩

theorem getCat_ok_isObj {analysis : JVal} {c : String} (h : getCat analysis = .ok c) :
    isObjB analysis = true := by
  cases analysis
  case obj kvs => rfl
  all_goals simp [getCat] at h

theorem getCat_default (name ftype msg : String) :
    ∃ c, getCat (create_default_analysis name ftype msg) = .ok c := by
  unfold create_default_analysis
  split_ifs <;> exact ⟨_, rfl⟩

/-- With the remote capability down, `analyze_content` always produces the
type-based default analysis (for empty content because of the early
fallback, otherwise because the raised connection error is caught). -/
theorem analyze_content_down (jl : String → Option JVal) (fd : Extracted) :
    analyze_content jl llmDown fd
      = create_default_analysis fd.file_name fd.file_type
          (if pyStrip fd.content = "" then "No content extracted" else "Connection error") := by
  by_cases h : pyStrip fd.content = ""
  · rw [if_pos h]
    simp only [analyze_content, if_pos h]
  · rw [if_neg h]
    simp only [analyze_content, if_neg h, llmDown]

theorem analyze_down_getCat (jl : String → Option JVal) (fd : Extracted) :
    ∃ c, getCat (analyze_content jl llmDown fd) = .ok c := by
  rw [analyze_content_down]
  exact getCat_default _ _ _

/-- A move attempt only ever appends the classification it was given, so a
log of well-formed (dict-shaped) analyses stays well-formed. -/
theorem organize_move_log (st : OrgState) (now : String) (fd : Extracted) (analysis : JVal)
    (c : String) (hobj : isObjB analysis = true)
    (hlog : ∀ e ∈ st.log, isObjB e.analysis = true) :
    ∀ e ∈ (organize_move st now fd analysis c).2.log, isObjB e.analysis = true := by
  simp only [organize_move]
  split
  · intro e he
    exact hlog e he
  · intro e he
    simp only [List.mem_append, List.mem_singleton] at he
    rcases he with he | he
    · exact hlog e he
    · rw [he]
      exact hobj

theorem process_file_terminal (R : Readers) (jl : String → Option JVal)
    (llm : String → Except String String) (st : OrgState) (now p : String)
    (hstat : ∃ n, R.statSize p = .ok n)
    (hcat : ∀ fd, extract_content R p = .ok fd →
      ∃ c, getCat (analyze_content jl llm fd) = .ok c)
    (hlog : ∀ e ∈ st.log, isObjB e.analysis = true) :
    ∃ o st', process_file R jl llm st now p = .ok (o, st')
      ∧ ∀ e ∈ st'.log, isObjB e.analysis = true := by
  obtain ⟨n, hn⟩ := hstat
  obtain ⟨fd, hfd⟩ := extract_ok R p n hn
  unfold process_file
  by_cases hcp : can_process p = true
  · rw [if_neg (fun hh => hh hcp)]
    simp only [hfd]
    by_cases herr : fd.error.isSome = true
    · rw [if_pos herr]
      exact ⟨.extraction_failed, st, rfl, hlog⟩
    · rw [if_neg herr]
      obtain ⟨c, hc⟩ := hcat fd hfd
      have hobj := getCat_ok_isObj hc
      have hlog' := organize_move_log st now fd (analyze_content jl llm fd) c hobj hlog
      rcases hpr : organize_move st now fd (analyze_content jl llm fd) c with ⟨r, st2⟩
      rw [hpr] at hlog'
      simp only at hlog'
      simp only [organize_file, hc, hpr]
      by_cases hs : r.status = "success"
      · rw [if_pos hs]
        exact ⟨.organized, st2, rfl, hlog'⟩
      · rw [if_neg hs]
        exact ⟨.organization_failed, st2, rfl, hlog'⟩
  · rw [if_pos hcp]
    exact ⟨.skipped, st, rfl, hlog⟩

theorem processLoop_ok (R : Readers) (jl : String → Option JVal)
    (llm : String → Except String String) (now : String) :
    ∀ (files : List String) (st : OrgState),
      (∀ p ∈ files, ∃ n, R.statSize p = .ok n) →
      (∀ p ∈ files, ∀ fd, extract_content R p = .ok fd →
        ∃ c, getCat (analyze_content jl llm fd) = .ok c) →
      (∀ e ∈ st.log, isObjB e.analysis = true) →
      ∃ st', processLoop R jl llm st now files = .ok st'
        ∧ ∀ e ∈ st'.log, isObjB e.analysis = true := by
  intro files
  induction files with
  | nil =>
    intro st _ _ hlog
    exact ⟨st, rfl, hlog⟩
  | cons p rest ih =>
    intro st hstat hcat hlog
    obtain ⟨o, st1, hpf, hlog1⟩ := process_file_terminal R jl llm st now p
      (hstat p (List.mem_cons_self p rest)) (hcat p (List.mem_cons_self p rest)) hlog
    obtain ⟨st', hloop, hlog'⟩ := ih st1
      (fun q hq => hstat q (List.mem_cons_of_mem p hq))
      (fun q hq => hcat q (List.mem_cons_of_mem p hq)) hlog1
    refine ⟨st', ?_, hlog'⟩
    simp only [processLoop, hpf]
    exact hloop

/-- Claim C5 (amended): provided the extractor's stat succeeds for each
file (the file has not vanished between detection and extraction) and the
classification's category value, when present, is a string, no error at
any pipeline stage crashes the coordinator: every file ends in exactly one
of the terminal states `skipped` (unsupported extension, state and log
untouched), `extraction_failed`, `organized`, or `organization_failed`
(the constructors of `Outcome`), and batch processing visits every file
and completes.  Without the provisos the coordinator can crash: see the
counterexample, where the stat's `FileNotFoundError` propagates. -/
theorem c5_pipeline_terminal_states (R : Readers) (jl : String → Option JVal)
    (llm : String → Except String String) (now : String) :
    (∀ (st : OrgState) (p : String),
      (∃ n, R.statSize p = .ok n) →
      (∀ fd, extract_content R p = .ok fd →
        ∃ c, getCat (analyze_content jl llm fd) = .ok c) →
      (∀ e ∈ st.log, isObjB e.analysis = true) →
      ∃ o st', process_file R jl llm st now p = .ok (o, st'))
    ∧ (∀ (st : OrgState) (p : String), can_process p = false →
        process_file R jl llm st now p = .ok (.skipped, st))
    ∧ (∀ (files : List String) (st : OrgState),
      (∀ p ∈ files, ∃ n, R.statSize p = .ok n) →
      (∀ p ∈ files, ∀ fd, extract_content R p = .ok fd →
        ∃ c, getCat (analyze_content jl llm fd) = .ok c) →
      (∀ e ∈ st.log, isObjB e.analysis = true) →
      ∃ st', process_existing_files R jl llm st now files = .ok st') := by
  refine ⟨?_, ?_, ?_⟩
  · intro st p hstat hcat hlog
    obtain ⟨o, st', h, -⟩ := process_file_terminal R jl llm st now p hstat hcat hlog
    exact ⟨o, st', h⟩
  · intro st p h
    unfold process_file
    rw [if_pos (fun hh => by rw [h] at hh; cases hh)]
  · intro files st hstat hcat hlog
    unfold process_existing_files
    by_cases hf : files = []
    · rw [if_pos hf]
      exact ⟨st, rfl⟩
    · rw [if_neg hf]
      obtain ⟨st', hloop, hlog'⟩ := processLoop_ok R jl llm now files st hstat hcat hlog
      simp only [hloop]
      obtain ⟨cats, hcats⟩ := foldCats_ok st'.log [] hlog'
      unfold generate_report
      by_cases hempty : st'.log.isEmpty
      · rw [if_pos hempty]
        exact ⟨st', rfl⟩
      · rw [if_neg hempty, hcats]
        exact ⟨st', rfl⟩

/-- Claim C5 counterexample: a supported-extension file that vanishes
before extraction (stat raises) crashes the coordinator — `process_file`
propagates the exception instead of reaching a terminal state, aborting
batch processing of subsequent files. -/
theorem c5_coordinator_crash_on_vanished_file :
    process_file ghostReaders jsonLoads llmDown (mkOrganizer "output" [] []) "T"
        "input/ghost.txt"
      = .error "[Errno 2] No such file or directory: 'input/ghost.txt'" := rfl

/-- Witness for C5 at concrete inputs: one existing text file, remote
classifier unreachable — the batch completes. -/
theorem c5_witness :
    ∃ st', process_existing_files okReaders jsonLoads llmDown
        (mkOrganizer "output" [] ["input/notes.txt"]) "T" ["input/notes.txt"] = .ok st' :=
  (c5_pipeline_terminal_states okReaders jsonLoads llmDown "T").2.2
    ["input/notes.txt"] (mkOrganizer "output" [] ["input/notes.txt"])
    (fun _ _ => ⟨5, rfl⟩)
    (fun _ _ fd _ => analyze_down_getCat jsonLoads fd)
    (by intro e he; simp [mkOrganizer] at he)
